import Mathlib

/-!
Verification of the BookFindingWeb CatalogClient (src/services/openLibraryApi.js,
given as src/unnamed/part_001, plus the detail-view extraction in
src/src/components/BookDetail.jsx).

The JavaScript values manipulated by the service are modelled by a small JSON
value type `Json` (with an explicit `undef` for JavaScript's `undefined`, so
that an absent object property is distinguishable from a present one).  Object
literals are modelled as association lists whose lookup returns the first
matching key; a literal written after a spread (`{...book, f: v}`) is therefore
modelled by prepending the overriding fields in front of the spread fields.
The asynchronous network calls are made explicit: each operation takes the
outcome of its fetches as an argument, and the module-level cache map is
threaded as explicit state.
-/

inductive Json where
  | undefined : Json
  | null : Json
  | bool (b : Bool) : Json
  | num (n : Int) : Json
  | str (s : String) : Json
  | arr (elems : List Json) : Json
  | obj (fields : List (String × Json)) : Json

mutual

def Json.beq : Json → Json → Bool
  | .undefined, .undefined => true
  | .null, .null => true
  | .bool a, .bool b => a == b
  | .num a, .num b => a == b
  | .str a, .str b => a == b
  | .arr xs, .arr ys => Json.beqList xs ys
  | .obj fs, .obj gs => Json.beqFields fs gs
  | _, _ => false

def Json.beqList : List Json → List Json → Bool
  | [], [] => true
  | x :: xs, y :: ys => Json.beq x y && Json.beqList xs ys
  | _, _ => false

def Json.beqFields : List (String × Json) → List (String × Json) → Bool
  | [], [] => true
  | (k, v) :: xs, (k2, v2) :: ys => k == k2 && Json.beq v v2 && Json.beqFields xs ys
  | _, _ => false

end

mutual

def Json.eq_of_beq : ∀ {a b : Json}, Json.beq a b = true → a = b
  | .undefined, .undefined, _ => rfl
  | .null, .null, _ => rfl
  | .bool _, .bool _, h => by simpa [Json.beq] using h
  | .num _, .num _, h => by simpa [Json.beq] using h
  | .str _, .str _, h => by simpa [Json.beq] using h
  | .arr _, .arr _, h =>
    congrArg Json.arr (Json.eqList_of_beq (by simpa [Json.beq] using h))
  | .obj _, .obj _, h =>
    congrArg Json.obj (Json.eqFields_of_beq (by simpa [Json.beq] using h))

def Json.eqList_of_beq : ∀ {xs ys : List Json}, Json.beqList xs ys = true → xs = ys
  | [], [], _ => rfl
  | _ :: _, _ :: _, h => by
    simp only [Json.beqList, Bool.and_eq_true] at h
    rw [Json.eq_of_beq h.1, Json.eqList_of_beq h.2]

def Json.eqFields_of_beq :
    ∀ {xs ys : List (String × Json)}, Json.beqFields xs ys = true → xs = ys
  | [], [], _ => rfl
  | (_, _) :: _, (_, _) :: _, h => by
    simp only [Json.beqFields, Bool.and_eq_true] at h
    rw [Json.eq_of_beq h.1.2, Json.eqFields_of_beq h.2]
    simp only [beq_iff_eq] at h
    rw [h.1.1]

end

mutual

def Json.beq_self : ∀ a : Json, Json.beq a a = true
  | .undefined => rfl
  | .null => rfl
  | .bool _ => by simp [Json.beq]
  | .num _ => by simp [Json.beq]
  | .str _ => by simp [Json.beq]
  | .arr xs => by simp [Json.beq, Json.beqList_self xs]
  | .obj fs => by simp [Json.beq, Json.beqFields_self fs]

def Json.beqList_self : ∀ xs : List Json, Json.beqList xs xs = true
  | [] => rfl
  | x :: xs => by simp [Json.beqList, Json.beq_self x, Json.beqList_self xs]

def Json.beqFields_self : ∀ xs : List (String × Json), Json.beqFields xs xs = true
  | [] => rfl
  | (_, v) :: xs => by simp [Json.beqFields, Json.beq_self v, Json.beqFields_self xs]

end

instance : DecidableEq Json := fun a b =>
  if h : Json.beq a b = true then
    .isTrue (Json.eq_of_beq h)
  else
    .isFalse (fun e => h (e ▸ Json.beq_self a))

/-- JavaScript property access `j.k`: the first binding of `k` in an object,
`undefined` otherwise (also for access on non-objects). -/
def Json.get (j : Json) (k : String) : Json :=
  match j with
  | .obj fields =>
    match fields.lookup k with
    | some v => v
    | none => .undefined
  | _ => .undefined

/-- JavaScript truthiness of a value (numbers are modelled as integers, so the
only falsy number is 0). -/
def Json.truthy : Json → Bool
  | .undefined => false
  | .null => false
  | .bool b => b
  | .num n => n != 0
  | .str s => s != ""
  | .arr _ => true
  | .obj _ => true

/-- Fields of an object, for modelling the spread `{...j, ...}` (spreading a
non-object contributes no fields; the service only spreads plain objects). -/
def Json.objFields : Json → List (String × Json)
  | .obj fields => fields
  | _ => []

/-- JavaScript `a || b`. -/
def jsOr (a b : Json) : Json := if a.truthy then a else b

/-- Coerce to a list, as done when iterating a value that the code has already
established to be an array (non-arrays yield the empty list). -/
def jsArr : Json → List Json
  | .arr elems => elems
  | _ => []

/-- Underlying string of a value on which the code calls a string method
(non-strings yield `""`; the code only reaches these calls with strings). -/
def asStr : Json → String
  | .str s => s
  | _ => ""

/-- Rendering of a value inside a template literal (only numbers and strings
are interpolated by the service). -/
def jsToStr : Json → String
  | .str s => s
  | .num n => toString n
  | .bool b => if b then "true" else "false"
  | .null => "null"
  | .undefined => "undefined"
  | .arr _ => ""
  | .obj _ => ""

/-- Truthiness of an optional string argument (JavaScript treats both
`undefined` and `""` as falsy). -/
def jsTruthyStr (o : Option String) : Bool :=
  match o with
  | some s => s != ""
  | none => false

/-- JavaScript `String.prototype.toLowerCase` (ASCII case mapping, which is
what the service's data exercises). -/
def lowerStr (s : String) : String := String.mk (s.data.map Char.toLower)

/-- Helper for `String.prototype.includes`: does the second list occur as a
contiguous run inside the first? -/
def jsIncludesChars (needle : List Char) : List Char → Bool
  | [] => needle.isEmpty
  | c :: rest => needle.isPrefixOf (c :: rest) || jsIncludesChars needle rest

/-- JavaScript `hay.includes(needle)`. -/
def jsIncludes (hay needle : String) : Bool := jsIncludesChars needle.data hay.data

/-- JavaScript `String.prototype.trim`: strip whitespace from both ends. -/
def jsTrim (s : String) : String :=
  String.mk (((s.data.dropWhile Char.isWhitespace).reverse.dropWhile
    Char.isWhitespace).reverse)

/-! ## Constants of the service (src/unnamed/part_001, lines 6-16)

In development the two base URLs are Vite proxy paths; the production values
are used here.  The choice is irrelevant to every claim: the base is an opaque
fixed string. -/

def COVERS_BASE_URL : String := "https://covers.openlibrary.org"

/-- Cache TTL: 5 minutes in milliseconds. -/
def CACHE_DURATION : Nat := 5 * 60 * 1000

/-! ## Normalization of raw search documents (lines 139-169) -/

/-- The `fastProcessBookData` mapper used by the search success path: emits
only the five reduced fields, truncating `author_name` to three entries. -/
def fastProcessBookData (book : Json) : Json :=
  .obj [("key", book.get "key"),
        ("title", jsOr (book.get "title") (.str "Untitled")),
        ("author_name",
          match book.get "author_name" with
          | .arr xs => .arr (xs.take 3)
          | _ => .arr []),
        ("first_publish_year", book.get "first_publish_year"),
        ("cover_i", book.get "cover_i")]

/-- The original `processBookData` mapper kept for detailed views: spreads the
raw document and overrides the array-shaped fields with array-normalized
values (`subject` capped at 5). -/
def processBookData (book : Json) : Json :=
  .obj ([("title", jsOr (book.get "title") (.str "Untitled")),
         ("author_name",
           match book.get "author_name" with
           | .arr xs => .arr xs
           | _ => .arr []),
         ("publisher",
           match book.get "publisher" with
           | .arr xs => .arr xs
           | _ => .arr []),
         ("isbn",
           match book.get "isbn" with
           | .arr xs => .arr xs
           | _ => .arr []),
         ("language",
           match book.get "language" with
           | .arr xs => .arr xs
           | _ => .arr []),
         ("subject",
           match book.get "subject" with
           | .arr xs => .arr (xs.take 5)
           | _ => .arr [])]
        ++ book.objFields)

/-- Filter applied to raw documents on the search success path (line 92):
keep documents with a title and either a cover or an author list. -/
def searchResultKeep (book : Json) : Bool :=
  (book.get "title").truthy &&
    ((book.get "cover_i").truthy || (book.get "author_name").truthy)

/-- Success-path result construction (lines 90-100): filter, take 15, map
`fastProcessBookData`, and override `docs` on the raw response object. -/
def searchSuccessResult (data : Json) : Json :=
  let processedBooks :=
    if (data.get "docs").truthy then
      (((jsArr (data.get "docs")).filter searchResultKeep).take 15).map
        fastProcessBookData
    else []
  .obj (("docs", .arr processedBooks) :: data.objFields)

/-! ## Cache key (lines 33-34): `JSON.stringify` of the raw argument object -/

/-- JSON string escaping as performed by `JSON.stringify` on the characters
that need it in this data (quote and backslash). -/
def escapeChar (c : Char) : List Char :=
  if c = '"' ∨ c = '\\' then ['\\', c] else [c]

def escapeString (s : String) : String := String.mk ((s.data.map escapeChar).flatten)

def quoteJson (s : String) : String := "\"" ++ escapeString s ++ "\""

mutual

/-- JavaScript `JSON.stringify`; `none` encodes that the value is `undefined`
and is omitted (object position) or rendered `null` (array position). -/
def jsonStringify : Json → Option String
  | .undefined => none
  | .null => some "null"
  | .bool b => some (if b then "true" else "false")
  | .num n => some (toString n)
  | .str s => some (quoteJson s)
  | .arr xs => some ("[" ++ String.intercalate "," (jsonStringifyList xs) ++ "]")
  | .obj fs =>
    some ("\x7b" ++ String.intercalate "," (jsonStringifyFields fs) ++ "\x7d")

def jsonStringifyList : List Json → List String
  | [] => []
  | x :: xs =>
    (match jsonStringify x with
     | some s => s
     | none => "null") :: jsonStringifyList xs

def jsonStringifyFields : List (String × Json) → List String
  | [] => []
  | (k, v) :: fs =>
    (match jsonStringify v with
     | some s => [quoteJson k ++ ":" ++ s]
     | none => []) ++ jsonStringifyFields fs

end

/-- Arguments of `searchBooks`: the destructured criteria fields (absent
fields are `undefined`) and the pagination numbers. -/
structure SearchArgs where
  title : Option String := none
  author : Option String := none
  subject : Option String := none
  limit : Int := 25
  offset : Int := 0
  deriving DecidableEq

def optStrJson : Option String → Json
  | some s => .str s
  | none => .undefined

/-- The object whose serialization is the cache key (line 34). -/
def cacheKeyJson (a : SearchArgs) : Json :=
  .obj [("title", optStrJson a.title),
        ("author", optStrJson a.author),
        ("subject", optStrJson a.subject),
        ("limit", .num a.limit),
        ("offset", .num a.offset)]

/-- Cache key: `JSON.stringify({title, author, subject, limit, offset})` on the
raw (untrimmed) argument values. -/
def cacheKey (a : SearchArgs) : String :=
  match jsonStringify (cacheKeyJson a) with
  | some s => s
  | none => "undefined"

/-- Query parameters appended to the network URL (lines 42-62): each provided
text field is trimmed here (and only here). -/
def buildSearchParams (a : SearchArgs) : List (String × String) :=
  (if jsTruthyStr a.title then [("title", jsTrim (a.title.getD ""))] else []) ++
  (if jsTruthyStr a.author then [("author", jsTrim (a.author.getD ""))] else []) ++
  (if jsTruthyStr a.subject then [("subject", jsTrim (a.subject.getD ""))] else []) ++
  [("limit", toString a.limit), ("offset", toString a.offset),
   ("fields", "key,title,author_name,first_publish_year,cover_i")]

/-! ## Fallback catalog (lines 491-540) -/

def FALLBACK_BOOKS : List Json :=
  [.obj [("key", .str "/works/OL82563W"),
         ("title", .str "Harry Potter and the Philosopher's Stone"),
         ("author_name", .arr [.str "J.K. Rowling"]),
         ("first_publish_year", .num 1997),
         ("cover_i", .num 258027)],
   .obj [("key", .str "/works/OL27449W"),
         ("title", .str "The Great Gatsby"),
         ("author_name", .arr [.str "F. Scott Fitzgerald"]),
         ("first_publish_year", .num 1925),
         ("cover_i", .num 7222246)],
   .obj [("key", .str "/works/OL103867W"),
         ("title", .str "To Kill a Mockingbird"),
         ("author_name", .arr [.str "Harper Lee"]),
         ("first_publish_year", .num 1960),
         ("cover_i", .num 2657175)],
   .obj [("key", .str "/works/OL1168007W"),
         ("title", .str "Pride and Prejudice"),
         ("author_name", .arr [.str "Jane Austen"]),
         ("first_publish_year", .num 1813),
         ("cover_i", .num 1063720)],
   .obj [("key", .str "/works/OL5735363W"),
         ("title", .str "The Hobbit"),
         ("author_name", .arr [.str "J.R.R. Tolkien"]),
         ("first_publish_year", .num 1937),
         ("cover_i", .num 442473)]]

/-- Per-record decoration performed by `getFallbackBooks`: add a `cover_url`
built from the cover id at medium size. -/
def fallbackDecorate (book : Json) : Json :=
  .obj (("cover_url",
          .str (COVERS_BASE_URL ++ "/b/id/" ++ jsToStr (book.get "cover_i")
            ++ "-M.jpg"))
        :: book.objFields)

/-- The value returned by `getFallbackBooks` (lines 531-540). -/
def getFallbackBooks : Json :=
  .obj [("docs", .arr (FALLBACK_BOOKS.map fallbackDecorate)),
        ("numFound", .num FALLBACK_BOOKS.length),
        ("totalCount", .num FALLBACK_BOOKS.length)]

/-- The filter predicate applied to fallback records in the catch branch of
`searchBooks` (lines 120-129). -/
def fallbackMatch (title author : Option String) (book : Json) : Bool :=
  let searchTerm := lowerStr (title.getD "")
  let authorTerm := lowerStr (author.getD "")
  let matchesTitle :=
    !(jsTruthyStr title) ||
      jsIncludes (lowerStr (asStr (book.get "title"))) searchTerm
  let matchesAuthor :=
    !(jsTruthyStr author) ||
      ((book.get "author_name").truthy &&
        (jsArr (book.get "author_name")).any
          (fun a => jsIncludes (lowerStr (asStr a)) authorTerm))
  matchesTitle && matchesAuthor

/-- The catch branch of `searchBooks` (lines 109-135): fallback data, filtered
by the search terms when a title or author was supplied, with `numFound` and
`totalCount` recomputed on that branch. -/
def searchFallback (title author : Option String) : Json :=
  if jsTruthyStr title || jsTruthyStr author then
    let docs := (FALLBACK_BOOKS.map fallbackDecorate).filter
      (fallbackMatch title author)
    .obj [("docs", .arr docs),
          ("numFound", .num docs.length),
          ("totalCount", .num docs.length)]
  else getFallbackBooks

/-! ## The `searchBooks` operation as a state-passing step function -/

structure CacheEntry where
  data : Json
  timestamp : Nat
  deriving DecidableEq

/-- The module-level `searchCache` map. -/
def Cache : Type := String → Option CacheEntry

/-- Outcome of the single network fetch issued by `searchBooks`: a parsed JSON
body, or failure (timeout via the 8s abort signal, network error, non-success
HTTP status, or an unparsable body — all reach the same catch block). -/
inductive FetchOutcome where
  | ok (data : Json)
  | fail

structure SearchOutput where
  result : Json
  cache : Cache
  networkCalled : Bool

/-- The part of `searchBooks` past the cache check: perform the fetch, and on
success store the processed result under the key with the current time. -/
def searchFetch (cache : Cache) (now : Nat) (a : SearchArgs) (net : FetchOutcome)
    (key : String) : SearchOutput :=
  match net with
  | .ok data =>
    let result := searchSuccessResult data
    ⟨result, fun k => if k = key then some ⟨result, now⟩ else cache k, true⟩
  | .fail => ⟨searchFallback a.title a.author, cache, true⟩

/-- `searchBooks` (lines 28-137): return a valid cache entry without touching
the network, otherwise fetch (storing on success, degrading to the fallback
catalog on failure). -/
def searchBooks (cache : Cache) (now : Nat) (a : SearchArgs) (net : FetchOutcome) :
    SearchOutput :=
  match cache (cacheKey a) with
  | some cached =>
    if now - cached.timestamp < CACHE_DURATION then ⟨cached.data, cache, false⟩
    else searchFetch cache now a net (cacheKey a)
  | none => searchFetch cache now a net (cacheKey a)

/-! ## Cover URLs (lines 180-214) -/

def validSizes : List String := ["S", "M", "L"]

/-- The operation `getCoverUrl` (the spec's `buildCoverUrl`): `null` for a
falsy or `-1` cover id, otherwise the formatted URL with an invalid size
coerced to the default `"S"`. -/
def getCoverUrl (coverId : Json) (size : String) : Option String :=
  if !coverId.truthy || coverId = .num (-1) then none
  else
    let coverSize := if validSizes.contains size then size else "S"
    some (COVERS_BASE_URL ++ "/b/id/" ++ jsToStr coverId ++ "-" ++ coverSize
      ++ ".jpg")

/-! ## Popular books pipeline (lines 267-377)

`getPopularBooksWithCovers` issues up to 12 fixed queries through
`searchBooks` and one optional broader top-up query.  The pipeline below is
parameterized by the outcome of those calls: one optional response object per
fixed query (in order; `none` models a rejected call, which the loop catches
and skips) and one optional response for the broader query. -/

/-- Length test `x.length > k` on a JavaScript value (strings and arrays have
a `length`; on other values the comparison is with `undefined` and false). -/
def jsLengthGt (j : Json) (k : Nat) : Bool :=
  match j with
  | .str s => decide (k < s.length)
  | .arr xs => decide (k < xs.length)
  | _ => false

/-- The strict per-document filter of the main loop (lines 309-324). -/
def popularKeep (book : Json) : Bool :=
  let c := book.get "cover_i"
  let t := book.get "title"
  c.truthy && (c != .num (-1)) &&
  (match c with
   | .num n => decide (0 < n) && decide (n < 8000000)
   | _ => false) &&
  t.truthy && (t != .str "Untitled") && jsLengthGt t 2 &&
  (book.get "author_name").truthy && jsLengthGt (book.get "author_name") 0 &&
  (book.get "first_publish_year").truthy &&
  (match book.get "first_publish_year" with
   | .num y => decide (1700 < y) && decide (y < 2025)
   | _ => false) &&
  (match t with
   | .str s => !(jsIncludes (lowerStr s) "unnamed")
   | _ => false)

/-- The relaxed filter of the broader top-up query (lines 347-359), without
its final not-already-collected test, which is applied in `topupBooks`. -/
def popularKeepRelaxed (book : Json) : Bool :=
  let c := book.get "cover_i"
  c.truthy && (c != .num (-1)) &&
  (match c with
   | .num n => decide (0 < n) && decide (n < 10000000)
   | _ => false) &&
  (book.get "title").truthy && jsLengthGt (book.get "title") 1 &&
  (book.get "author_name").truthy && jsLengthGt (book.get "author_name") 0

/-- The accumulation loop over the fixed queries (lines 301-331), with its
early exit once three times the target count has been collected. -/
def accumPopular : List (Option Json) → Nat → List Json → List Json
  | [], _, acc => acc
  | outcome :: rest, target3, acc =>
    if target3 ≤ acc.length then acc
    else
      match outcome with
      | some results =>
        accumPopular rest target3
          (acc ++ (jsArr (results.get "docs")).filter popularKeep)
      | none => accumPopular rest target3 acc

/-- Deduplication by `key` keeping the first occurrence — the rendering of
`filter((book, index, arr) => arr.findIndex(b => b.key === book.key) === index)`
(lines 334-337), carried out with the set of already-seen key values. -/
def dedupByKeyGo (seen : List Json) : List Json → List Json
  | [] => []
  | b :: rest =>
    if (b.get "key") ∈ seen then dedupByKeyGo seen rest
    else b :: dedupByKeyGo (b.get "key" :: seen) rest

def dedupByKey (books : List Json) : List Json := dedupByKeyGo [] books

/-- Sort key of the comparator `(a, b) => (a.cover_i || 999999) - (b.cover_i
|| 999999)` (line 338). -/
def coverKey (book : Json) : Int :=
  match jsOr (book.get "cover_i") (.num 999999) with
  | .num n => n
  | _ => 999999

/-- The comparator's ordering relation. -/
abbrev coverLe (a b : Json) : Prop := coverKey a ≤ coverKey b

instance : IsTotal Json coverLe := ⟨fun a b => le_total (coverKey a) (coverKey b)⟩

instance : IsTrans Json coverLe := ⟨fun _ _ _ hab hbc => le_trans hab hbc⟩

/-- `Array.prototype.sort` with the cover comparator: a stable ascending sort,
modelled by insertion sort (extensionally equal for a consistent comparator). -/
def sortByCover (books : List Json) : List Json := List.insertionSort coverLe books

/-- The deduplicated, sorted accumulation of the main loop (lines 333-338). -/
def popularUnique (outcomes : List (Option Json)) (targetCount : Nat) : List Json :=
  sortByCover (dedupByKey (accumPopular outcomes (targetCount * 3) []))

/-- The records appended by the broader top-up query when fewer than
`targetCount` unique books were found (lines 341-367): relaxed filter, skip
books already collected, and take only the shortfall.  `broad` is the outcome
of that query (`none`: failed, or never issued because the shortfall test was
false). -/
def topupBooks (uniqueBooks : List Json) (broad : Option Json) (targetCount : Nat) :
    List Json :=
  if uniqueBooks.length < targetCount then
    match broad with
    | some results =>
      ((jsArr (results.get "docs")).filter
        (fun book =>
          popularKeepRelaxed book &&
          !(uniqueBooks.any (fun existing =>
              existing.get "key" == book.get "key")))).take
        (targetCount - uniqueBooks.length)
    | none => []
  else []

/-- `getPopularBooksWithCovers` (lines 284-377): main accumulation, dedup and
sort, optional top-up, then the requested page. -/
def getPopularBooksWithCovers (outcomes : List (Option Json)) (broad : Option Json)
    (targetCount : Nat) (offset : Nat) : Json :=
  let uniqueBooks := popularUnique outcomes targetCount
  let finalBooks := uniqueBooks ++ topupBooks uniqueBooks broad targetCount
  let limitedBooks := (finalBooks.drop offset).take targetCount
  .obj [("docs", .arr limitedBooks),
        ("numFound", .num finalBooks.length),
        ("showing", .num limitedBooks.length)]

/-- `getPopularBooks` (lines 273-276) delegates directly. -/
def getPopularBooks (outcomes : List (Option Json)) (broad : Option Json)
    (targetCount : Nat) (offset : Nat) : Json :=
  getPopularBooksWithCovers outcomes broad targetCount offset

/-- The `docs` array of a result object. -/
def docsOf (result : Json) : List Json := jsArr (result.get "docs")

/-! ## Book details (lines 379-468) -/

/-- Trailing path segment: `key.split("/").pop()`. -/
def splitPop (s : String) : String :=
  match (s.splitOn "/").getLast? with
  | some x => x
  | none => ""

/-- Normalization of one entry of a work's polymorphic `authors` array
(lines 460-467). -/
def extractAuthorEntry (author : Json) : Json :=
  match author with
  | .str s => .str s
  | _ =>
    if (author.get "author").truthy && ((author.get "author").get "key").truthy then
      .str (splitPop (asStr ((author.get "author").get "key")))
    else jsOr (author.get "name") (.str "Unknown Author")

/-- `extractAuthors` (lines 457-468). -/
def extractAuthors (authors : Json) : Json :=
  match authors with
  | .arr xs => .arr (xs.map extractAuthorEntry)
  | _ => .arr []

/-- First edition entry `editionsData?.entries?.[0]`. -/
def editionEntry0 (ed : Json) : Json :=
  match ed.get "entries" with
  | .arr (e :: _) => e
  | _ => .undefined

/-- The edition overlay `...(editionsData?.entries?.[0] && {...})`
(lines 432-440); `none` models the best-effort editions fetch having failed
(the code then keeps `editionsData = null`). -/
def editionOverlay (editionsData : Option Json) : List (String × Json) :=
  match editionsData with
  | none => []
  | some ed =>
    if (editionEntry0 ed).truthy then
      [("publisher", jsOr ((editionEntry0 ed).get "publishers") (.arr [])),
       ("isbn", jsOr ((editionEntry0 ed).get "isbn_13")
         (jsOr ((editionEntry0 ed).get "isbn_10") (.arr []))),
       ("language", jsOr ((editionEntry0 ed).get "languages") (.arr [])),
       ("edition_count", jsOr (ed.get "size") (.num 1))]
    else []

/-- The processed record built by `getBookDetails` from the fetched work
document and optional editions document (lines 420-441).  `yearOf` stands for
`new Date(s).getFullYear()`, whose date parsing is outside this model and
irrelevant to the claims. -/
def getBookDetails (yearOf : String → Int) (bookData : Json)
    (editionsData : Option Json) : Json :=
  .obj (editionOverlay editionsData ++
        [("title", jsOr (bookData.get "title") (.str "Untitled")),
         ("author_name", extractAuthors (bookData.get "authors")),
         ("description", bookData.get "description"),
         ("first_sentence", bookData.get "first_sentence"),
         ("subject",
           match bookData.get "subjects" with
           | .arr xs => .arr xs
           | _ => .arr []),
         ("cover_i",
           jsOr (match bookData.get "covers" with
                 | .arr (c :: _) => c
                 | _ => .undefined)
             .null),
         ("first_publish_year",
           if (bookData.get "first_publish_date").truthy then
             .num (yearOf (asStr (bookData.get "first_publish_date")))
           else .null)]
        ++ bookData.objFields)

/-- The description rendering performed by the detail view
(src/src/components/BookDetail.jsx lines 281-283):
`typeof d === "string" ? d : d.value || d`. -/
def renderDescription (d : Json) : Json :=
  match d with
  | .str s => .str s
  | _ => jsOr (d.get "value") d

/-! ## Author display formatting (lines 470-489) -/

/-- `formatAuthors` on an author-name array (the spec's `formatAuthorList`);
the source's non-array guard falls outside the list model. -/
def formatAuthors (authors : List String) : String :=
  if authors.length = 0 then "Unknown Author"
  else if authors.length = 1 then authors.headD ""
  else if authors.length = 2 then String.intercalate " & " authors
  else
    String.intercalate ", " (authors.take 2) ++ " & "
      ++ toString (authors.length - 2) ++ " more"

/-! ## Definitions following the specification's wording, for comparison -/

/-- Follows the claim wording for the fallback filter: a record matches when
its title case-insensitively contains the supplied title substring and its
author list case-insensitively contains the supplied author substring, both
conditions AND'ed when both are supplied (a field that is not supplied, or
supplied empty, imposes no condition). -/
def specFallbackMatch (title author : Option String) (book : Json) : Bool :=
  (!(jsTruthyStr title) ||
    jsIncludes (lowerStr (asStr (book.get "title"))) (lowerStr (title.getD ""))) &&
  (!(jsTruthyStr author) ||
    (jsArr (book.get "author_name")).any
      (fun a => jsIncludes (lowerStr (asStr a)) (lowerStr (author.getD ""))))

/-- Follows the claim wording for the cache key: the structural serialization
of the argument object with its string values trimmed. -/
def cacheKeySpec (a : SearchArgs) : String :=
  cacheKey ⟨a.title.map jsTrim, a.author.map jsTrim, a.subject.map jsTrim,
    a.limit, a.offset⟩

/-- Decidable rendering of the claim wording "sorted in ascending order of
cover identifier": each adjacent pair is ordered by the sort's cover key. -/
def isSortedByCover : List Json → Bool
  | [] => true
  | [_] => true
  | a :: b :: rest => decide (coverKey a ≤ coverKey b) && isSortedByCover (b :: rest)

/-! ## Helper lemmas -/

/-- The code's fallback filter agrees with the specification's wording on
every record: the code's extra truthiness test on `author_name` is redundant,
because a non-array `author_name` makes both sides fail the author condition
the same way. -/
theorem fallbackMatch_eq_spec (title author : Option String) (book : Json) :
    fallbackMatch title author book = specFallbackMatch title author book := by
  unfold fallbackMatch specFallbackMatch
  cases h : book.get "author_name" <;>
    simp [h, jsArr, Json.truthy]

theorem mem_accumPopular {b : Json} :
    ∀ (outcomes : List (Option Json)) (t3 : Nat) (acc : List Json),
      b ∈ accumPopular outcomes t3 acc → b ∈ acc ∨ popularKeep b = true
  | [], _, _, h => Or.inl h
  | o :: rest, t3, acc, h => by
    unfold accumPopular at h
    split at h
    · exact Or.inl h
    · cases o with
      | some results =>
        rcases mem_accumPopular rest t3 _ h with hacc | hkeep
        · rcases List.mem_append.mp hacc with h1 | h2
          · exact Or.inl h1
          · exact Or.inr (List.of_mem_filter h2)
        · exact Or.inr hkeep
      | none => exact mem_accumPopular rest t3 acc h

theorem mem_dedupByKeyGo {b : Json} :
    ∀ (seen l : List Json), b ∈ dedupByKeyGo seen l → b ∈ l
  | _, [], h => absurd h (List.not_mem_nil b)
  | seen, c :: rest, h => by
    unfold dedupByKeyGo at h
    by_cases hmem : (c.get "key") ∈ seen
    · rw [if_pos hmem] at h
      exact List.mem_cons_of_mem c (mem_dedupByKeyGo seen rest h)
    · rw [if_neg hmem] at h
      rcases List.mem_cons.mp h with rfl | h2
      · exact List.mem_cons_self _ _
      · exact List.mem_cons_of_mem c (mem_dedupByKeyGo _ rest h2)

theorem nodup_keys_dedupByKeyGo :
    ∀ (seen l : List Json),
      ((dedupByKeyGo seen l).map (fun b => b.get "key")).Nodup ∧
      ∀ b ∈ dedupByKeyGo seen l, (b.get "key") ∉ seen
  | _, [] => ⟨List.nodup_nil, fun b h => absurd h (List.not_mem_nil b)⟩
  | seen, b :: rest => by
    unfold dedupByKeyGo
    by_cases hmem : (b.get "key") ∈ seen
    · rw [if_pos hmem]
      exact nodup_keys_dedupByKeyGo seen rest
    · rw [if_neg hmem]
      obtain ⟨ihnd, ihseen⟩ := nodup_keys_dedupByKeyGo (b.get "key" :: seen) rest
      refine ⟨?_, ?_⟩
      · rw [List.map_cons, List.nodup_cons]
        refine ⟨fun hin => ?_, ihnd⟩
        obtain ⟨c, hc, hkey⟩ := List.mem_map.mp hin
        exact (ihseen c hc) (hkey ▸ List.mem_cons_self _ _)
      · intro c hc
        rcases List.mem_cons.mp hc with rfl | hc2
        · exact hmem
        · exact fun habs => (ihseen c hc2) (List.mem_cons_of_mem _ habs)

theorem popularKeep_cover {book : Json} (h : popularKeep book = true) :
    ∃ n : Int, book.get "cover_i" = .num n ∧ 0 < n ∧ n < 8000000 := by
  simp only [popularKeep, Bool.and_eq_true] at h
  obtain ⟨⟨⟨⟨⟨⟨⟨⟨⟨⟨-, -⟩, hc⟩, -⟩, -⟩, -⟩, -⟩, -⟩, -⟩, -⟩, -⟩ := h
  cases hcov : book.get "cover_i" <;> rw [hcov] at hc
  case num n =>
    simp only [Bool.and_eq_true, decide_eq_true_eq] at hc
    exact ⟨n, rfl, hc.1, hc.2⟩
  all_goals simp at hc

theorem popularKeepRelaxed_cover {book : Json} (h : popularKeepRelaxed book = true) :
    ∃ n : Int, book.get "cover_i" = .num n ∧ 0 < n ∧ n < 10000000 := by
  simp only [popularKeepRelaxed, Bool.and_eq_true] at h
  obtain ⟨⟨⟨⟨⟨⟨-, -⟩, hc⟩, -⟩, -⟩, -⟩, -⟩ := h
  cases hcov : book.get "cover_i" <;> rw [hcov] at hc
  case num n =>
    simp only [Bool.and_eq_true, decide_eq_true_eq] at hc
    exact ⟨n, rfl, hc.1, hc.2⟩
  all_goals simp at hc

theorem mem_popularUnique {outcomes : List (Option Json)} {target : Nat} {b : Json}
    (h : b ∈ popularUnique outcomes target) : popularKeep b = true := by
  unfold popularUnique sortByCover at h
  have h2 := (List.perm_insertionSort coverLe _).mem_iff.mp h
  have h3 := mem_dedupByKeyGo _ _ h2
  rcases mem_accumPopular _ _ _ h3 with habs | hkeep
  · exact absurd habs (List.not_mem_nil b)
  · exact hkeep

theorem mem_topupBooks {uniqueBooks : List Json} {broad : Option Json} {target : Nat}
    {b : Json} (h : b ∈ topupBooks uniqueBooks broad target) :
    popularKeepRelaxed b = true ∧
      ∀ u ∈ uniqueBooks, (u.get "key") ≠ (b.get "key") := by
  unfold topupBooks at h
  split at h
  · cases broad with
    | none => exact absurd h (List.not_mem_nil b)
    | some results =>
      have h2 := (List.take_sublist _ _).subset h
      obtain ⟨_, hp⟩ := List.mem_filter.mp h2
      simp only [Bool.and_eq_true, Bool.not_eq_true'] at hp
      refine ⟨hp.1, fun u hu => ?_⟩
      have := List.any_eq_false.mp hp.2 u hu
      simpa using this
  · exact absurd h (List.not_mem_nil b)

theorem sorted_sortByCover (l : List Json) : List.Sorted coverLe (sortByCover l) :=
  List.sorted_insertionSort coverLe l

theorem isSortedByCover_of_sorted :
    ∀ {l : List Json}, List.Sorted coverLe l → isSortedByCover l = true
  | [], _ => rfl
  | [_], _ => rfl
  | a :: b :: rest, h => by
    have hab : coverLe a b := List.rel_of_pairwise_cons h (List.mem_cons_self b rest)
    unfold isSortedByCover
    simp [hab, isSortedByCover_of_sorted h.of_cons]

/-! ## Claim C8 -/

/-- C8: `formatAuthors` (the spec's `formatAuthorList`) returns
"Unknown Author" on the empty list, the single name on a one-element list,
the two names joined by " & " on a two-element list, and on n ≥ 3 names the
first two joined by ", " followed by " & ", the number n-2, and " more". -/
theorem formatAuthors_cases :
    formatAuthors [] = "Unknown Author" ∧
    (∀ a : String, formatAuthors [a] = a) ∧
    (∀ a b : String, formatAuthors [a, b] = a ++ " & " ++ b) ∧
    (∀ (a b c : String) (rest : List String),
      formatAuthors (a :: b :: c :: rest) =
        a ++ ", " ++ b ++ " & " ++ toString (rest.length + 1) ++ " more") := by
  exact ⟨rfl, fun a => rfl, fun a b => rfl, fun a b c rest => rfl⟩

/-! ## Claim C9 -/

/-- C9 counterexample: `getCoverUrl` applied to the cover id 0 — which is
neither missing (`undefined`) nor the sentinel -1 — still returns absent, because
the guard tests JavaScript falsiness, not just absence and the sentinel. -/
theorem getCoverUrl_zero_cex :
    getCoverUrl (.num 0) "M" = none ∧
    (Json.num 0) ≠ .undefined ∧ (Json.num 0) ≠ .num (-1) := by decide

/-- C9 (amended): `getCoverUrl` returns absent exactly when the cover id is
falsy (absent, null, 0, false, or the empty string) or equals the sentinel
-1; a size outside `{S, M, L}` behaves exactly like the default "S"; in all
remaining cases the result is the URL formatted from the fixed covers base,
the cover id, and the (coerced) size. -/
theorem getCoverUrl_spec (coverId : Json) (size : String) :
    (getCoverUrl coverId size = none ↔
      (coverId.truthy = false ∨ coverId = .num (-1))) ∧
    (validSizes.contains size = false →
      getCoverUrl coverId size = getCoverUrl coverId "S") ∧
    (coverId.truthy = true → coverId ≠ .num (-1) →
      getCoverUrl coverId size =
        some (COVERS_BASE_URL ++ "/b/id/" ++ jsToStr coverId ++ "-"
          ++ (if validSizes.contains size then size else "S") ++ ".jpg")) := by
  refine ⟨?_, fun hs => ?_, fun ht he => ?_⟩
  · by_cases ht : coverId.truthy <;> by_cases he : coverId = .num (-1) <;>
      simp [getCoverUrl, ht, he]
  · have hs2 : ¬ size ∈ validSizes := by simpa using hs
    by_cases ht : coverId.truthy <;> by_cases he : coverId = .num (-1) <;>
      simp [getCoverUrl, ht, he, hs2]
  · simp [getCoverUrl, ht, he]

/-- C9 witness: size "X" is invalid and is treated as "S" for cover id 12345. -/
theorem getCoverUrl_spec_witness :
    validSizes.contains "X" = false ∧
    getCoverUrl (.num 12345) "X" = getCoverUrl (.num 12345) "S" :=
  ⟨by decide, (getCoverUrl_spec (.num 12345) "X").2.1 (by decide)⟩

/-! ## Claim C10 -/

/-- C10: the search success path truncates `author_name` to its first three
entries, so every record in the returned `docs` carries at most 3 authors. -/
theorem search_authors_truncated :
    (∀ (book : Json) (xs : List Json), book.get "author_name" = .arr xs →
      (fastProcessBookData book).get "author_name" = .arr (xs.take 3)) ∧
    (∀ data : Json, ∀ r ∈ docsOf (searchSuccessResult data),
      ∃ xs : List Json, r.get "author_name" = .arr xs ∧ xs.length ≤ 3) := by
  have hget : ∀ book : Json, (fastProcessBookData book).get "author_name" =
      (match book.get "author_name" with
       | .arr ys => .arr (ys.take 3)
       | _ => .arr []) := fun _ => rfl
  constructor
  · intro book xs h
    rw [hget, h]
  · intro data r hr
    have hdocs : docsOf (searchSuccessResult data) =
        if (data.get "docs").truthy then
          (((jsArr (data.get "docs")).filter searchResultKeep).take 15).map
            fastProcessBookData
        else [] := rfl
    rw [hdocs] at hr
    split at hr
    · obtain ⟨book, -, rfl⟩ := List.mem_map.mp hr
      cases ha : book.get "author_name" with
      | arr xs => exact ⟨xs.take 3, by rw [hget, ha], by simp⟩
      | undefined => exact ⟨[], by rw [hget, ha], by simp⟩
      | null => exact ⟨[], by rw [hget, ha], by simp⟩
      | bool v => exact ⟨[], by rw [hget, ha], by simp⟩
      | num v => exact ⟨[], by rw [hget, ha], by simp⟩
      | str v => exact ⟨[], by rw [hget, ha], by simp⟩
      | obj v => exact ⟨[], by rw [hget, ha], by simp⟩
    · exact absurd hr (List.not_mem_nil r)

def cBook10 : Json :=
  .obj [("title", .str "T"),
        ("author_name", .arr [.str "A", .str "B", .str "C", .str "D"])]

def cData10 : Json := .obj [("docs", .arr [cBook10]), ("numFound", .num 1)]

/-- C10 witness: a raw document with four authors is truncated to three on
the search success path. -/
theorem search_authors_truncated_witness :
    (fastProcessBookData cBook10).get "author_name"
      = .arr ([.str "A", .str "B", .str "C", .str "D"].take 3) ∧
    ∃ xs : List Json,
      (fastProcessBookData cBook10).get "author_name" = .arr xs ∧ xs.length ≤ 3 :=
  ⟨search_authors_truncated.1 cBook10 [.str "A", .str "B", .str "C", .str "D"]
      (by decide),
   search_authors_truncated.2 cData10 (fastProcessBookData cBook10) (by decide)⟩

/-! ## Claim C5 -/

/-- C5 counterexample: two search calls whose titles differ only by a
trailing space (same limit and offset) produce different cache keys — the
key serializes the raw, untrimmed argument values. -/
theorem cacheKey_trim_cex :
    jsTrim "X " = "X" ∧
    cacheKey ⟨some "X", none, none, 25, 0⟩ ≠ cacheKey ⟨some "X ", none, none, 25, 0⟩ := by
  decide

/-- C5 (amended): the cache key is the structural serialization of the raw
(untrimmed) values of `{title, author, subject, limit, offset}`; it coincides
with the trimmed-value serialization exactly for already-trimmed arguments,
and the trimming is applied to the outgoing query parameters instead. -/
theorem cacheKey_raw_values (a : SearchArgs)
    (ht : a.title.map jsTrim = a.title)
    (ha : a.author.map jsTrim = a.author)
    (hs : a.subject.map jsTrim = a.subject) :
    cacheKey a = cacheKeySpec a ∧
    (jsTruthyStr a.title = true →
      (buildSearchParams a).lookup "title" = some (jsTrim (a.title.getD ""))) := by
  constructor
  · unfold cacheKeySpec
    rw [ht, ha, hs]
  · intro htr
    simp [buildSearchParams, htr, List.lookup]

/-- C5 witness: for the already-trimmed title "X" the raw-value key and the
trimmed-value key agree, and the query parameter carries the trimmed title. -/
theorem cacheKey_raw_values_witness :
    ((some "X").map jsTrim = some "X") ∧
    cacheKey ⟨some "X", none, none, 25, 0⟩ = cacheKeySpec ⟨some "X", none, none, 25, 0⟩ ∧
    (buildSearchParams ⟨some "X", none, none, 25, 0⟩).lookup "title" = some (jsTrim "X") :=
  ⟨by decide,
   (cacheKey_raw_values ⟨some "X", none, none, 25, 0⟩ (by decide) (by decide)
      (by decide)).1,
   (cacheKey_raw_values ⟨some "X", none, none, 25, 0⟩ (by decide) (by decide)
      (by decide)).2 (by decide)⟩

/-! ## Claim C3 -/

def cRaw3 : Json :=
  .obj [("key", .str "/works/OL1W"), ("title", .str "T"),
        ("author_name", .arr [.str "A"])]

def cData3 : Json := .obj [("docs", .arr [cRaw3]), ("numFound", .num 1)]

/-- C3 counterexample: on a raw document missing `publisher`, `isbn`,
`language`, and `subject`, the record produced by the search success path has
those fields absent (`undefined`) rather than equal to an empty sequence: the
fast mapper only emits the five reduced fields. -/
theorem search_missing_fields_cex :
    (docsOf (searchSuccessResult cData3)).map
        (fun r => (r.get "publisher", r.get "isbn", r.get "language", r.get "subject"))
      = [(.undefined, .undefined, .undefined, .undefined)] := by decide

/-- C3 (amended): on the search success path (`fastProcessBookData`) a
missing `author_name` becomes the empty sequence, but `publisher`, `isbn`,
`language`, and `subject` are absent from the record altogether; the full
mapper `processBookData` kept for detailed views normalizes all five fields
of a document that lacks them into empty sequences. -/
theorem search_missing_fields :
    ∀ book : Json,
      ((book.get "author_name" = .undefined →
          (fastProcessBookData book).get "author_name" = .arr []) ∧
        (fastProcessBookData book).get "publisher" = .undefined ∧
        (fastProcessBookData book).get "isbn" = .undefined ∧
        (fastProcessBookData book).get "language" = .undefined ∧
        (fastProcessBookData book).get "subject" = .undefined) ∧
      (∀ f ∈ (["author_name", "publisher", "isbn", "language", "subject"] : List String),
        book.get f = .undefined → (processBookData book).get f = .arr []) := by
  intro book
  refine ⟨⟨fun h => ?_, rfl, rfl, rfl, rfl⟩, ?_⟩
  · have hget : (fastProcessBookData book).get "author_name" =
        (match book.get "author_name" with
         | .arr ys => .arr (ys.take 3)
         | _ => .arr []) := rfl
    rw [hget, h]
  · intro f hf h
    simp only [List.mem_cons, List.not_mem_nil, or_false] at hf
    rcases hf with rfl | rfl | rfl | rfl | rfl
    · have hget : (processBookData book).get "author_name" =
          (match book.get "author_name" with
           | .arr ys => .arr ys
           | _ => .arr []) := rfl
      rw [hget, h]
    · have hget : (processBookData book).get "publisher" =
          (match book.get "publisher" with
           | .arr ys => .arr ys
           | _ => .arr []) := rfl
      rw [hget, h]
    · have hget : (processBookData book).get "isbn" =
          (match book.get "isbn" with
           | .arr ys => .arr ys
           | _ => .arr []) := rfl
      rw [hget, h]
    · have hget : (processBookData book).get "language" =
          (match book.get "language" with
           | .arr ys => .arr ys
           | _ => .arr []) := rfl
      rw [hget, h]
    · have hget : (processBookData book).get "subject" =
          (match book.get "subject" with
           | .arr ys => .arr (ys.take 5)
           | _ => .arr []) := rfl
      rw [hget, h]

/-- C3 witness: instantiation on a document with none of the five fields. -/
theorem search_missing_fields_witness :
    ((Json.obj [("title", .str "T")]).get "author_name" = .undefined) ∧
    (fastProcessBookData (.obj [("title", .str "T")])).get "author_name" = .arr [] ∧
    (processBookData (.obj [("title", .str "T")])).get "publisher" = .arr [] :=
  ⟨by decide,
   (search_missing_fields (.obj [("title", .str "T")])).1.1 (by decide),
   (search_missing_fields (.obj [("title", .str "T")])).2 "publisher" (by decide)
     (by decide)⟩

/-! ## Claim C4 -/

def cWork4 : Json :=
  .obj [("title", .str "T"),
        ("description", .obj [("type", .str "/type/text"), ("value", .str "A story.")])]

/-- C4 counterexample: on a work document whose `description` is a nested
object carrying the text, the record built by `getBookDetails` keeps the
object as-is — the returned description is an object, not the extracted
plain string and not absent. -/
theorem getBookDetails_description_cex :
    (getBookDetails (fun _ => 0) cWork4 none).get "description"
      = .obj [("type", .str "/type/text"), ("value", .str "A story.")] ∧
    (getBookDetails (fun _ => 0) cWork4 none).get "description" ≠ .str "A story." := by
  decide

/-- C4 (amended): `getBookDetails` passes `description` through unchanged
(whatever shape the work document carries, including a nested object); the
plain string is extracted only at render time by the detail view
(`renderDescription`), which keeps strings as-is and otherwise takes the
object's truthy `value` field. -/
theorem getBookDetails_description_passthrough (yearOf : String → Int)
    (bookData : Json) (editionsData : Option Json) :
    (getBookDetails yearOf bookData editionsData).get "description"
      = bookData.get "description" ∧
    (∀ s : String, renderDescription (.str s) = .str s) ∧
    (∀ (fs : List (String × Json)) (s : String),
      (Json.obj fs).get "value" = .str s → s ≠ "" →
      renderDescription (.obj fs) = .str s) := by
  refine ⟨?_, fun s => rfl, fun fs s hv hs => ?_⟩
  · cases editionsData with
    | none => rfl
    | some ed =>
      simp only [getBookDetails, editionOverlay]
      split
      · rfl
      · rfl
  · have hrd : renderDescription (.obj fs) = jsOr ((Json.obj fs).get "value") (.obj fs) :=
      rfl
    rw [hrd, hv]
    simp [jsOr, Json.truthy, hs]

/-- C4 witness: instantiation on a work whose description is a value-carrying
object, with the render-time extraction recovering the plain string. -/
theorem getBookDetails_description_passthrough_witness :
    (getBookDetails (fun _ => 0) cWork4 none).get "description"
      = cWork4.get "description" ∧
    renderDescription (.obj [("type", .str "/type/text"), ("value", .str "A story.")])
      = .str "A story." :=
  ⟨(getBookDetails_description_passthrough (fun _ => 0) cWork4 none).1,
   (getBookDetails_description_passthrough (fun _ => 0) cWork4 none).2.2
     [("type", .str "/type/text"), ("value", .str "A story.")] "A story."
     (by decide) (by decide)⟩

theorem searchBooks_lookup_none {cache : Cache} {now : Nat} {a : SearchArgs}
    {net : FetchOutcome} (hc : cache (cacheKey a) = none) :
    searchBooks cache now a net = searchFetch cache now a net (cacheKey a) := by
  unfold searchBooks
  rw [hc]

theorem searchBooks_lookup_some {cache : Cache} {now : Nat} {a : SearchArgs}
    {net : FetchOutcome} {cached : CacheEntry}
    (hc : cache (cacheKey a) = some cached) :
    searchBooks cache now a net =
      (if now - cached.timestamp < CACHE_DURATION then ⟨cached.data, cache, false⟩
       else searchFetch cache now a net (cacheKey a)) := by
  unfold searchBooks
  rw [hc]

/-! ## Claim C1 -/

/-- C1: after a first `searchBooks` call that went to the network and
succeeded, a second call with identical arguments within the 5-minute TTL of
the stored entry returns the stored result without issuing a network request,
and a call with the same arguments made at or after TTL expiry issues a new
network request. -/
theorem searchBooks_cache_ttl (cache : Cache) (a : SearchArgs) (t1 : Nat) (data : Json)
    (h1 : (searchBooks cache t1 a (.ok data)).networkCalled = true)
    (t2 : Nat) (net2 : FetchOutcome) :
    (t2 - t1 < CACHE_DURATION →
      searchBooks (searchBooks cache t1 a (.ok data)).cache t2 a net2 =
        ⟨(searchBooks cache t1 a (.ok data)).result,
          (searchBooks cache t1 a (.ok data)).cache, false⟩) ∧
    (CACHE_DURATION ≤ t2 - t1 →
      (searchBooks (searchBooks cache t1 a (.ok data)).cache t2 a net2).networkCalled
        = true) := by
  have h1out : searchBooks cache t1 a (.ok data) =
      ⟨searchSuccessResult data,
        fun k => if k = cacheKey a then some ⟨searchSuccessResult data, t1⟩ else cache k,
        true⟩ := by
    cases hc : cache (cacheKey a) with
    | none =>
      rw [searchBooks_lookup_none hc]
      rfl
    | some cached =>
      rw [searchBooks_lookup_some hc] at h1 ⊢
      by_cases hv : t1 - cached.timestamp < CACHE_DURATION
      · rw [if_pos hv] at h1
        simp at h1
      · rw [if_neg hv]
        rfl
  rw [h1out]
  dsimp only
  have hc2 : (fun k =>
      if k = cacheKey a then some ⟨searchSuccessResult data, t1⟩ else cache k)
      (cacheKey a) = some (⟨searchSuccessResult data, t1⟩ : CacheEntry) := by
    simp
  rw [@searchBooks_lookup_some _ t2 a net2 _ hc2]
  constructor
  · intro hlt
    rw [if_pos hlt]
  · intro hge
    rw [if_neg (Nat.not_lt.mpr hge)]
    cases net2 <;> rfl

def cCache1 : Cache := fun _ => none

def cArgs1 : SearchArgs := ⟨some "X", none, none, 25, 0⟩

/-- C1 witness: a fresh cache, a successful first call at time 0, and a
second identical call at time 1 (inside the TTL) that is served from the
cache without a network request. -/
theorem searchBooks_cache_ttl_witness :
    (searchBooks cCache1 0 cArgs1 (.ok (.obj []))).networkCalled = true ∧
    (1 - 0 < CACHE_DURATION) ∧
    searchBooks (searchBooks cCache1 0 cArgs1 (.ok (.obj []))).cache 1 cArgs1 .fail =
      ⟨(searchBooks cCache1 0 cArgs1 (.ok (.obj []))).result,
        (searchBooks cCache1 0 cArgs1 (.ok (.obj []))).cache, false⟩ :=
  ⟨by decide, by decide,
   (searchBooks_cache_ttl cCache1 cArgs1 0 (.obj []) (by decide) 1 .fail).1 (by decide)⟩

/-! ## Claim C2 -/

/-- C2: whenever the network request issued by `searchBooks` fails, the call
still returns a result: the fallback catalog filtered to the records whose
title contains the supplied title substring and whose author list contains
the supplied author substring, case-insensitively, AND'ed when both are
supplied (an unmatched query yields an empty `docs`), with `numFound` and
`totalCount` equal to the filtered length. -/
theorem searchBooks_failure_fallback (cache : Cache) (now : Nat) (a : SearchArgs)
    (h : (searchBooks cache now a .fail).networkCalled = true) :
    (searchBooks cache now a .fail).result =
      .obj [("docs", .arr ((FALLBACK_BOOKS.map fallbackDecorate).filter
              (specFallbackMatch a.title a.author))),
            ("numFound", .num ((FALLBACK_BOOKS.map fallbackDecorate).filter
              (specFallbackMatch a.title a.author)).length),
            ("totalCount", .num ((FALLBACK_BOOKS.map fallbackDecorate).filter
              (specFallbackMatch a.title a.author)).length)] := by
  have hres : (searchBooks cache now a .fail).result = searchFallback a.title a.author := by
    cases hc : cache (cacheKey a) with
    | none =>
      rw [searchBooks_lookup_none hc]
      rfl
    | some cached =>
      rw [searchBooks_lookup_some hc] at h ⊢
      by_cases hv : now - cached.timestamp < CACHE_DURATION
      · rw [if_pos hv] at h
        simp at h
      · rw [if_neg hv]
        rfl
  rw [hres]
  unfold searchFallback
  have hfilter : (FALLBACK_BOOKS.map fallbackDecorate).filter
        (fallbackMatch a.title a.author)
      = (FALLBACK_BOOKS.map fallbackDecorate).filter
        (specFallbackMatch a.title a.author) :=
    List.filter_congr (fun b _ => fallbackMatch_eq_spec a.title a.author b)
  by_cases hta : (jsTruthyStr a.title || jsTruthyStr a.author) = true
  · rw [if_pos hta, hfilter]
  · rw [if_neg hta]
    simp only [Bool.not_eq_true, Bool.or_eq_false_iff] at hta
    have hall : (FALLBACK_BOOKS.map fallbackDecorate).filter
          (specFallbackMatch a.title a.author)
        = FALLBACK_BOOKS.map fallbackDecorate := by
      refine List.filter_eq_self.mpr (fun b _ => ?_)
      simp [specFallbackMatch, hta.1, hta.2]
    rw [hall]
    unfold getFallbackBooks
    simp [List.length_map]

def cCache2 : Cache := fun _ => none

def cArgs2 : SearchArgs := ⟨some "Harry", none, none, 25, 0⟩

/-- C2 witness: a failed fetch for the title "Harry" filters the fallback
catalog against that term. -/
theorem searchBooks_failure_fallback_witness :
    (searchBooks cCache2 0 cArgs2 .fail).networkCalled = true ∧
    (searchBooks cCache2 0 cArgs2 .fail).result =
      .obj [("docs", .arr ((FALLBACK_BOOKS.map fallbackDecorate).filter
              (specFallbackMatch cArgs2.title cArgs2.author))),
            ("numFound", .num ((FALLBACK_BOOKS.map fallbackDecorate).filter
              (specFallbackMatch cArgs2.title cArgs2.author)).length),
            ("totalCount", .num ((FALLBACK_BOOKS.map fallbackDecorate).filter
              (specFallbackMatch cArgs2.title cArgs2.author)).length)] :=
  ⟨by decide, searchBooks_failure_fallback cCache2 0 cArgs2 (by decide)⟩

/-! ## Claim C6 -/

def cDup6 : Json :=
  .obj [("key", .str "/works/W"), ("title", .str "AB"),
        ("author_name", .arr [.str "A"]), ("cover_i", .num 5)]

/-- C6 counterexample: when the main queries yield nothing and the broader
top-up query returns the same record twice, `getPopularBooksWithCovers`
returns both copies — the top-up filter checks new records only against the
already-collected unique list, not against each other, so the returned docs
are not deduplicated by id. -/
theorem getPopular_dedup_cex :
    (docsOf (getPopularBooksWithCovers [] (some (.obj [("docs", .arr [cDup6, cDup6])]))
        2 0)).map (fun b => b.get "key")
      = [.str "/works/W", .str "/works/W"] := by decide

/-- C6 (amended): for every target count and upstream outcome,
`getPopularBooksWithCovers` returns at most `targetCount` records; every
returned record has a numeric cover id strictly between 0 and 10,000,000,
and every returned record not contributed by the top-up path has one
strictly between 0 and 8,000,000; the main-path unique list is deduplicated
by id (keeping first occurrences) and top-up records have ids distinct from
every main-path record — but top-up records are not deduplicated among
themselves. -/
theorem getPopular_bounds (outcomes : List (Option Json)) (broad : Option Json)
    (targetCount : Nat) :
    (docsOf (getPopularBooksWithCovers outcomes broad targetCount 0)).length
        ≤ targetCount ∧
    (∀ b ∈ docsOf (getPopularBooksWithCovers outcomes broad targetCount 0),
      ∃ n : Int, b.get "cover_i" = .num n ∧ 0 < n ∧ n < 10000000) ∧
    (∀ b ∈ docsOf (getPopularBooksWithCovers outcomes broad targetCount 0),
      b ∉ topupBooks (popularUnique outcomes targetCount) broad targetCount →
      ∃ n : Int, b.get "cover_i" = .num n ∧ 0 < n ∧ n < 8000000) ∧
    ((popularUnique outcomes targetCount).map (fun b => b.get "key")).Nodup ∧
    (∀ b ∈ topupBooks (popularUnique outcomes targetCount) broad targetCount,
      ∀ u ∈ popularUnique outcomes targetCount,
        (u.get "key") ≠ (b.get "key")) := by
  have hdocs : docsOf (getPopularBooksWithCovers outcomes broad targetCount 0) =
      ((popularUnique outcomes targetCount ++
        topupBooks (popularUnique outcomes targetCount) broad targetCount).drop 0).take
        targetCount := rfl
  have hmem : ∀ b ∈ docsOf (getPopularBooksWithCovers outcomes broad targetCount 0),
      b ∈ popularUnique outcomes targetCount ∨
        b ∈ topupBooks (popularUnique outcomes targetCount) broad targetCount := by
    intro b hb
    rw [hdocs, List.drop_zero] at hb
    exact List.mem_append.mp ((List.take_sublist _ _).subset hb)
  refine ⟨?_, ?_, ?_, ?_, ?_⟩
  · rw [hdocs, List.drop_zero]
    exact List.length_take_le _ _
  · intro b hb
    rcases hmem b hb with hu | ht
    · obtain ⟨n, hn, h0, h8⟩ := popularKeep_cover (mem_popularUnique hu)
      exact ⟨n, hn, h0, by omega⟩
    · exact popularKeepRelaxed_cover (mem_topupBooks ht).1
  · intro b hb hnt
    rcases hmem b hb with hu | ht
    · exact popularKeep_cover (mem_popularUnique hu)
    · exact absurd ht hnt
  · have hperm : List.Perm (popularUnique outcomes targetCount)
        (dedupByKey (accumPopular outcomes (targetCount * 3) [])) :=
      List.perm_insertionSort coverLe _
    have hnd := (nodup_keys_dedupByKeyGo [] (accumPopular outcomes (targetCount * 3) [])).1
    exact ((hperm.map (fun b => b.get "key")).nodup_iff).mpr hnd
  · intro b hb u hu
    exact (mem_topupBooks hb).2 u hu

def cGood6 : Json :=
  .obj [("key", .str "/works/G"), ("title", .str "Good Book"),
        ("author_name", .arr [.str "A"]), ("first_publish_year", .num 2000),
        ("cover_i", .num 77)]

/-- C6 witness: one main query returning one qualifying record. -/
theorem getPopular_bounds_witness :
    cGood6 ∈ docsOf (getPopularBooksWithCovers
      [some (.obj [("docs", .arr [cGood6])])] none 3 0) ∧
    ∃ n : Int, cGood6.get "cover_i" = .num n ∧ 0 < n ∧ n < 10000000 :=
  ⟨by decide,
   (getPopular_bounds [some (.obj [("docs", .arr [cGood6])])] none 3).2.1 cGood6
     (by decide)⟩

/-! ## Claim C7 -/

def cB7a : Json :=
  .obj [("key", .str "/works/A"), ("title", .str "Book One"),
        ("author_name", .arr [.str "Anne"]), ("first_publish_year", .num 2000),
        ("cover_i", .num 100)]

def cB7b : Json :=
  .obj [("key", .str "/works/B"), ("title", .str "Book Two"),
        ("author_name", .arr [.str "Beth"]), ("first_publish_year", .num 1999),
        ("cover_i", .num 200)]

def cB7c : Json :=
  .obj [("key", .str "/works/C"), ("title", .str "AB"),
        ("author_name", .arr [.str "Cara"]), ("cover_i", .num 50)]

/-- C7 counterexample: with two main-path records (cover ids 100 and 200) and
one top-up record (cover id 50), the returned docs sequence is 100, 200, 50 —
the top-up records are appended after the sort, so the result is not sorted
in ascending order of cover identifier. -/
theorem getPopular_sorted_cex :
    isSortedByCover (docsOf (getPopularBooksWithCovers
      [some (.obj [("docs", .arr [cB7a, cB7b])])]
      (some (.obj [("docs", .arr [cB7c])])) 3 0)) = false := by decide

/-- C7 (amended): the main-path unique list is sorted in ascending order of
cover identifier, and whenever the top-up path contributes nothing the
returned docs are sorted as well; top-up records, however, are appended after
the sort. -/
theorem getPopular_sorted (outcomes : List (Option Json)) (broad : Option Json)
    (targetCount : Nat) :
    isSortedByCover (popularUnique outcomes targetCount) = true ∧
    (topupBooks (popularUnique outcomes targetCount) broad targetCount = [] →
      isSortedByCover
        (docsOf (getPopularBooksWithCovers outcomes broad targetCount 0)) = true) := by
  have hs : List.Sorted coverLe (popularUnique outcomes targetCount) :=
    sorted_sortByCover _
  refine ⟨isSortedByCover_of_sorted hs, fun htop => ?_⟩
  have hdocs : docsOf (getPopularBooksWithCovers outcomes broad targetCount 0) =
      ((popularUnique outcomes targetCount ++
        topupBooks (popularUnique outcomes targetCount) broad targetCount).drop 0).take
        targetCount := rfl
  rw [hdocs, htop, List.append_nil, List.drop_zero]
  exact isSortedByCover_of_sorted ((hs).sublist (List.take_sublist _ _))

/-- C7 witness: with no upstream data the top-up list is empty and the
returned docs are (vacuously) sorted. -/
theorem getPopular_sorted_witness :
    topupBooks (popularUnique ([] : List (Option Json)) 0) none 0 = [] ∧
    isSortedByCover (docsOf (getPopularBooksWithCovers [] none 0 0)) = true :=
  ⟨by decide, (getPopular_sorted [] none 0).2 (by decide)⟩
